import Mathlib

set_option allowUnsafeReducibility true

attribute [local semireducible] Rat.add Rat.sub Rat.mul Rat.inv Rat.div

/-!
Verification of the script-generation component of a Reddit-to-video
pipeline (`script_generator.py`, `script_templates.py`, `script_config.py`).

The Python code is shallowly embedded: dictionaries whose keys may be
absent become structures with `Option` fields, floats become `ℚ`,
Python's global `random` module becomes an explicitly threaded stream of
pseudo-random numbers (`Rng`, a fixed seed determines the stream), the
wall clock (`datetime.now().isoformat()`) becomes an explicit `now`
argument, and `raise` becomes `Except.error`.  File-writing exporters are
modelled as the string they write.
-/

/-- The single-quote character, built numerically so string literals can
stay plain; used to assemble narration phrases containing apostrophes. -/
def apostr : String := ⟨[Char.ofNat 39]⟩

/-- Python `sep.join(parts)`. -/
def joinWith (sep : String) : List String → String
  | [] => ""
  | [x] => x
  | x :: xs => x ++ sep ++ joinWith sep xs

/-- Split a character list at every character satisfying `p`, keeping
(possibly empty) fragments between delimiters.  Splitting on each
delimiter character and later discarding empty fragments is equivalent to
Python's `re.split` on runs of delimiters followed by the same filter. -/
def splitChars (p : Char → Bool) : List Char → List (List Char)
  | [] => [[]]
  | c :: cs =>
    if p c then [] :: splitChars p cs
    else
      match splitChars p cs with
      | [] => [[c]]
      | f :: rest => (c :: f) :: rest

/-- Python `str.strip()` on a character list: drop leading and trailing
whitespace. -/
def stripChars (l : List Char) : List Char :=
  ((l.dropWhile Char.isWhitespace).reverse.dropWhile Char.isWhitespace).reverse

/-- Python `text.split()`: split on whitespace, dropping empty pieces. -/
def pySplitWs (s : String) : List String :=
  ((splitChars Char.isWhitespace s.data).map String.mk).filter (fun w => w ≠ "")

/-- Python `str.format`-style literal substitution: replace every
occurrence of `pat` by `rep`, scanning left to right without overlap.
Structured over a step-count `fuel` (the caller passes the text length,
which bounds the scan) so that the kernel can evaluate it. -/
def replaceFuel (pat rep : List Char) : Nat → List Char → List Char
  | _, [] => []
  | 0, l => l
  | fuel + 1, c :: cs =>
    if pat ≠ [] ∧ (c :: cs).take pat.length = pat then
      rep ++ replaceFuel pat rep fuel ((c :: cs).drop pat.length)
    else c :: replaceFuel pat rep fuel cs

/-- Python `template.format(...)` for a single named placeholder:
substitute every occurrence of the literal `pat`. -/
def pyFormatReplace (s pat rep : String) : String :=
  String.mk (replaceFuel pat.data rep.data s.data.length s.data)

/-- Python `int(q)` (truncation toward zero). -/
def pyTrunc (q : ℚ) : Int :=
  if 0 ≤ q then ⌊q⌋ else -⌊-q⌋

/-- Insert a comma after every third character of a reversed digit list;
helper for Python's `f"{n:,}"` thousands formatting. -/
def commasRev : List Char → List Char
  | c1 :: c2 :: c3 :: c4 :: rest => c1 :: c2 :: c3 :: ',' :: commasRev (c4 :: rest)
  | l => l

/-- Python `f"{n:,}"`: decimal rendering with thousands separators. -/
def formatWithCommas (n : Int) : String :=
  (if n < 0 then "-" else "") ++ String.mk (commasRev (toString n.natAbs).data.reverse).reverse

/-- Python `f"{n:02d}"`. -/
def pad2 (n : Nat) : String :=
  if n < 10 then "0" ++ toString n else toString n

/-- Python `f"{n:03d}"`. -/
def pad3 (n : Nat) : String :=
  if n < 10 then "00" ++ toString n
  else if n < 100 then "0" ++ toString n
  else toString n

/-- The stream of numbers drawn from Python's global `random` PRNG; a
fixed `random.seed` determines the stream, so the stream itself stands
for the seed. -/
abbrev Rng := List Nat

/-- Draw the next pseudo-random number. -/
def Rng.next : Rng → Nat × Rng
  | [] => (0, [])
  | n :: rest => (n, rest)

/-- Python `random.choice(l)`: pick an element at a PRNG-chosen index.
Only ever called on non-empty lists in this code base. -/
def pyChoice (l : List String) (rng : Rng) : String × Rng :=
  let (n, rng') := rng.next
  (l.getD (n % l.length) "", rng')

/-! ## `script_config.py` -/

/-- `SCRIPT_OPTIONS` (the fields this component reads), merged with any
caller-supplied overrides as in `ScriptGenerator.__init__`. -/
structure ScriptOptions where
  words_per_minute : ℚ := 150
  pause_duration : ℚ := 1/2
  show_usernames : Bool := true
  show_scores : Bool := true
deriving DecidableEq

/-- `NARRATION_TEMPLATES["intro"]`, keyed by style;
`dict.get(style, [])` for unknown styles. -/
def introTemplates (style : String) : List String :=
  if style = "casual" then
    ["Check out this post from Reddit",
     "Here" ++ apostr ++ "s an interesting story from r/\x7bsubreddit\x7d",
     "You won" ++ apostr ++ "t believe what happened on Reddit",
     "This Reddit post is wild",
     "Let me tell you about this Reddit story"]
  else if style = "formal" then
    ["Today we" ++ apostr ++ "re looking at a post from r/\x7bsubreddit\x7d",
     "This is a story that was shared on Reddit",
     "A user on Reddit shared this interesting post"]
  else if style = "dramatic" then
    ["This is the story that shocked Reddit",
     "What you" ++ apostr ++ "re about to hear will blow your mind",
     "The internet went crazy over this post"]
  else if style = "comedic" then
    ["Reddit never disappoints, and this post proves it",
     "Hold onto your hats for this one folks",
     "The internet is a weird place, and here" ++ apostr ++ "s proof"]
  else []

/-- `NARRATION_TEMPLATES["transition"]["to_comments"]`. -/
def toCommentsTransitions : List String :=
  ["Let" ++ apostr ++ "s see what people had to say",
   "The comments section did not disappoint",
   "Here" ++ apostr ++ "s what Redditors thought",
   "The best part is in the comments"]

/-- `NARRATION_TEMPLATES["engagement"]`. -/
def engagementPrompts : List String :=
  ["What do you think about this?",
   "Let me know in the comments",
   "Would you do the same thing?",
   "This is crazy, right?",
   "Drop your thoughts below"]

/-- `NARRATION_TEMPLATES["outro"]`. -/
def outroPhrases : List String :=
  ["Thanks for watching! Hit that subscribe button for more Reddit content",
   "Don" ++ apostr ++ "t forget to like and subscribe",
   "Follow for more stories from Reddit",
   "See you in the next one",
   "That" ++ apostr ++ "s it for today, catch you later"]

/-- `COMMENT_SELECTION.get(format_type, {"max_comments": 3, "min_score": 10})`,
returning `(max_comments, min_score)`. -/
def commentCriteria (format_type : String) : Nat × Int :=
  if format_type = "short" then (1, 100)
  else if format_type = "medium" then (3, 50)
  else if format_type = "long" then (10, 10)
  else (3, 10)

/-! ## Data model: post records -/

/-- A comment record; every field is read with `dict.get` in the source,
so each is optional. -/
structure Comment where
  author : Option String := none
  body : Option String := none
  score : Option Int := none
deriving DecidableEq

/-- A Reddit post record (a Python dict).  `Option` marks keys that may
be absent; `_validate_post_data` checks four of them. -/
structure Post where
  id : Option String := none
  title : Option String := none
  body : Option String := none
  subreddit : Option String := none
  author : Option String := none
  url : Option String := none
  score : Option Int := none
  num_comments : Option Int := none
  comments : Option (List Comment) := none
  awards : Option (List String) := none
deriving DecidableEq

/-! ## `script_templates.py` -/

/-- One entry of a template's `segments` list. -/
structure SegmentSpec where
  name : String
  duration : ℚ
  required : Bool
  content_type : String
  narration : String
  visual : String
deriving DecidableEq

/-- A script template: `format_type` plus its `segments` list. -/
structure ScriptTemplate where
  format_type : String
  segments : List SegmentSpec
deriving DecidableEq

/-- `ShortFormTemplate`. -/
def shortFormTemplate : ScriptTemplate :=
  { format_type := "short",
    segments :=
      [⟨"hook", 3, true, "title", "attention_grabbing", "title_screen"⟩,
       ⟨"body", 15, true, "post_body", "main_content", "text_overlay"⟩,
       ⟨"top_comment", 8, false, "comments", "comment_reaction", "comment_highlight"⟩,
       ⟨"outro", 3, true, "call_to_action", "engagement", "cta_screen"⟩] }

/-- `MediumFormTemplate`. -/
def mediumFormTemplate : ScriptTemplate :=
  { format_type := "medium",
    segments :=
      [⟨"intro", 5, true, "intro", "greeting", "animated_intro"⟩,
       ⟨"title", 6, true, "title", "title_read", "title_screen"⟩,
       ⟨"context", 3, false, "metadata", "background", "stats_display"⟩,
       ⟨"body", 30, true, "post_body", "main_content", "text_overlay"⟩,
       ⟨"comments", 15, true, "comments", "comment_reactions", "comment_section"⟩,
       ⟨"engagement", 3, false, "engagement", "question", "engagement_prompt"⟩,
       ⟨"outro", 5, true, "call_to_action", "subscribe_reminder", "outro_screen"⟩] }

/-- `LongFormTemplate`. -/
def longFormTemplate : ScriptTemplate :=
  { format_type := "long",
    segments :=
      [⟨"cold_open", 8, false, "teaser", "hook", "dramatic_opener"⟩,
       ⟨"intro", 8, true, "intro", "channel_intro", "branded_intro"⟩,
       ⟨"title", 8, true, "title", "title_with_context", "title_animation"⟩,
       ⟨"context", 10, true, "metadata", "detailed_background", "context_graphics"⟩,
       ⟨"body_part_1", 45, true, "post_body", "main_content", "scrolling_text"⟩,
       ⟨"mid_engagement", 8, true, "engagement", "like_reminder", "like_button_animation"⟩,
       ⟨"body_part_2", 45, false, "post_continuation", "continued_content", "scrolling_text"⟩,
       ⟨"comments", 40, true, "comments", "comment_analysis", "comment_thread"⟩,
       ⟨"engagement", 8, true, "engagement", "discussion_prompt", "poll_or_question"⟩,
       ⟨"outro", 10, true, "outro", "thanks_and_subscribe", "end_screen"⟩] }

/-- `StoryTimeTemplate`. -/
def storyTimeTemplate : ScriptTemplate :=
  { format_type := "story",
    segments :=
      [⟨"hook", 5, true, "title", "story_hook", "dramatic_text"⟩,
       ⟨"setup", 15, true, "context", "story_setup", "background_visuals"⟩,
       ⟨"story", 60, true, "post_body", "story_telling", "story_visuals"⟩,
       ⟨"reactions", 30, true, "comments", "reaction_summary", "comment_reactions"⟩,
       ⟨"conclusion", 10, true, "outro", "story_wrap", "conclusion_screen"⟩] }

/-- `CompilationTemplate` (its `post_segment` also carries
`repeatable: True`, a key nothing in this component reads). -/
def compilationTemplate : ScriptTemplate :=
  { format_type := "compilation",
    segments :=
      [⟨"intro", 10, true, "intro", "compilation_intro", "montage"⟩,
       ⟨"post_segment", 30, true, "post_block", "post_summary", "post_display"⟩,
       ⟨"outro", 10, true, "outro", "compilation_outro", "end_montage"⟩] }

deriving instance DecidableEq for Except

/-- Exceptions this component can raise.  `templateNotFoundError` is
modelled from the spec: the spec names a `TemplateNotFoundError` class,
but no such class exists anywhere in the source; it is included only so
that statements about it can be written down. -/
inductive PyError where
  | invalidPostDataError (msg : String)
  | invalidFormatError (msg : String)
  | valueError (msg : String)
  | templateNotFoundError
deriving DecidableEq

/-- `get_template`: membership test on the `TEMPLATES` dict, raising
`ValueError` for unknown names. -/
def get_template (template_name : String) : Except PyError ScriptTemplate :=
  if template_name = "short" then .ok shortFormTemplate
  else if template_name = "medium" then .ok mediumFormTemplate
  else if template_name = "long" then .ok longFormTemplate
  else if template_name = "story" then .ok storyTimeTemplate
  else if template_name = "compilation" then .ok compilationTemplate
  else .error (.valueError ("Invalid template: " ++ template_name ++
    ". Available templates: short, medium, long, story, compilation"))

/-! ## Script output model -/

/-- One element of a visual cue's `elements` list. -/
inductive VisualElement where
  | text (content : String) (position : Option String) (scroll : Bool)
  | label (content : String) (position : String)
  | comment (author : String) (body : String) (score : Int)
  | stat (label : String) (value : Int)
deriving DecidableEq

/-- A visual cue, as built by `_generate_visual_cues`. -/
structure Visual where
  type : String
  elements : List VisualElement
deriving DecidableEq

/-- One script segment, as built by `_generate_segment`. -/
structure Segment where
  name : String
  type : String
  start_time : ℚ
  end_time : ℚ
  duration : ℚ
  narration : String
  visual : Visual
  required : Bool
deriving DecidableEq

/-- The `metadata` dict built by `_generate_metadata`. -/
structure Metadata where
  post_id : String
  title : String
  subreddit : String
  author : String
  post_url : String
  format_type : String
  template : String
  generated_at : String
  post_score : Int
  num_comments : Int
deriving DecidableEq

/-- The script dict returned by `generate_script`. -/
structure Script where
  metadata : Metadata
  segments : List Segment
  total_duration : ℚ
  word_count : Nat
  narration_style : String
deriving DecidableEq

namespace ScriptGenerator

/-- `required_fields` of `_validate_post_data`. -/
def requiredFields : List String := ["title", "body", "subreddit", "author"]

/-- `field in post_data` for the fields validation looks at. -/
def postHasField (p : Post) (f : String) : Bool :=
  if f = "title" then p.title.isSome
  else if f = "body" then p.body.isSome
  else if f = "subreddit" then p.subreddit.isSome
  else if f = "author" then p.author.isSome
  else false

/-- The `missing` list of `_validate_post_data`. -/
def missingFields (p : Post) : List String :=
  requiredFields.filter (fun f => ¬ postHasField p f)

/-- `_validate_post_data`: raises `InvalidPostDataError` when required
keys are absent. -/
def validate_post_data (p : Post) : Except PyError Unit :=
  if missingFields p ≠ [] then
    .error (.invalidPostDataError
      ("Post data missing required fields: " ++ joinWith ", " (missingFields p)))
  else .ok ()

/-- `_generate_metadata` (with `datetime.now().isoformat()` passed in as
`now`). -/
def generate_metadata (p : Post) (format_type template_name now : String) : Metadata :=
  { post_id := p.id.getD "unknown",
    title := p.title.getD "",
    subreddit := p.subreddit.getD "",
    author := p.author.getD "",
    post_url := p.url.getD "",
    format_type := format_type,
    template := template_name,
    generated_at := now,
    post_score := p.score.getD 0,
    num_comments := p.num_comments.getD 0 }

/-- `_count_words`. -/
def count_words (text : String) : Nat :=
  if text = "" then 0 else (pySplitWs text).length

/-- `_calculate_duration`. -/
def calculate_duration (opts : ScriptOptions) (text : String) (base_duration : ℚ) : ℚ :=
  if text = "" then base_duration
  else
    let word_count := count_words text
    let calculated_duration := ((word_count : ℚ) / opts.words_per_minute) * 60
    let calculated_duration := calculated_duration + opts.pause_duration
    max base_duration calculated_duration

/-- `_generate_intro_narration`. -/
def generate_intro_narration (p : Post) (style : String) (rng : Rng) : String × Rng :=
  let templates := introTemplates style
  let templates :=
    if templates = [] then ["Here" ++ apostr ++ "s an interesting post from r/\x7bsubreddit\x7d"]
    else templates
  let (template, rng') := pyChoice templates rng
  (pyFormatReplace template "\x7bsubreddit\x7d" (p.subreddit.getD ""), rng')

/-- `_generate_title_narration`. -/
def generate_title_narration (p : Post) (style : String) : String :=
  let title := p.title.getD ""
  if style = "dramatic" then "Listen to this: " ++ title
  else if style = "comedic" then "Get this: " ++ title
  else title

/-- `_generate_context_narration`. -/
def generate_context_narration (opts : ScriptOptions) (p : Post) (format_type : String) : String :=
  let context_parts : List String := []
  let context_parts :=
    if opts.show_usernames then context_parts ++ ["Posted by u/" ++ p.author.getD ""]
    else context_parts
  let context_parts :=
    if opts.show_scores ∧ p.score.getD 0 ≠ 0 ∧ p.score.isSome then
      context_parts ++ ["with " ++ formatWithCommas (p.score.getD 0) ++ " upvotes"]
    else context_parts
  let context_parts :=
    if format_type = "long" ∧ (p.awards.getD []) ≠ [] ∧ p.awards.isSome then
      if (p.awards.getD []).length > 0 then
        context_parts ++ ["and " ++ toString (p.awards.getD []).length ++ " awards"]
      else context_parts
    else context_parts
  if context_parts ≠ [] then joinWith ". " context_parts ++ "." else ""

/-- `_generate_body_narration`. -/
def generate_body_narration (p : Post) (format_type : String) : String :=
  let body := p.body.getD ""
  if body = "" then ""
  else
    let max_words : Nat :=
      if format_type = "short" then 50
      else if format_type = "medium" then 150
      else 500
    let words := pySplitWs body
    if words.length > max_words then joinWith " " (words.take max_words) ++ "..."
    else body

/-- The comment-selection loop of `_generate_comments_narration`: scan in
list order, keep qualifying comments, stop at `max_comments`. -/
def selectComments (max_comments : Nat) (min_score : Int) :
    List Comment → List Comment → List Comment
  | selected, [] => selected
  | selected, c :: cs =>
    if selected.length ≥ max_comments then selected
    else if c.score.getD 0 ≥ min_score then
      selectComments max_comments min_score (selected ++ [c]) cs
    else selectComments max_comments min_score selected cs

/-- The per-comment narration text built in the selection loop's second
pass. -/
def commentText (opts : ScriptOptions) (format_type : String) (c : Comment) : String :=
  let body := c.body.getD ""
  let max_length : Nat := if format_type = "long" then 200 else 100
  let body := if body.length > max_length then body.take max_length ++ "..." else body
  let text :=
    if opts.show_usernames then "u/" ++ c.author.getD "someone" ++ " said: " ++ body
    else "One person said: " ++ body
  if opts.show_scores ∧ c.score.getD 0 > 50 then
    text ++ ". This got " ++ toString (c.score.getD 0) ++ " upvotes"
  else text

/-- `_generate_comments_narration`. -/
def generate_comments_narration (opts : ScriptOptions) (p : Post) (format_type : String)
    (rng : Rng) : String × Rng :=
  let comments := p.comments.getD []
  if comments = [] then ("", rng)
  else
    let criteria := commentCriteria format_type
    let selected := selectComments criteria.1 criteria.2 [] comments
    if selected = [] then ("", rng)
    else
      let transitions := toCommentsTransitions
      let (head_parts, rng') :=
        if transitions ≠ [] then
          let (transition, r) := pyChoice transitions rng
          ([transition], r)
        else ([], rng)
      let narration_parts := head_parts ++ selected.map (commentText opts format_type)
      (joinWith ". " narration_parts ++ ".", rng')

/-- `_generate_engagement_narration`. -/
def generate_engagement_narration (rng : Rng) : String × Rng :=
  let prompts := engagementPrompts
  let prompts :=
    if prompts = [] then ["What do you think?", "Let me know in the comments"] else prompts
  pyChoice prompts rng

/-- `_generate_outro_narration`. -/
def generate_outro_narration (rng : Rng) : String × Rng :=
  let outros := outroPhrases
  let outros := if outros = [] then ["Thanks for watching!"] else outros
  pyChoice outros rng

/-- `_generate_teaser_narration`. -/
def generate_teaser_narration (p : Post) (style : String) : String :=
  let title := p.title.getD ""
  let teaser :=
    if title.data.contains ':' then String.mk (title.data.takeWhile (fun c => c ≠ ':'))
    else
      let words := pySplitWs title
      joinWith " " (words.take (min 10 words.length))
  if style = "dramatic" then "You need to hear this story about " ++ teaser
  else teaser

/-- `_generate_narration`: dispatch on the stringly-typed content type. -/
def generate_narration (opts : ScriptOptions) (content_type : String) (p : Post)
    (format_type narration_style : String) (rng : Rng) : String × Rng :=
  if content_type = "intro" then generate_intro_narration p narration_style rng
  else if content_type = "title" then (generate_title_narration p narration_style, rng)
  else if content_type = "metadata" ∨ content_type = "context" then
    (generate_context_narration opts p format_type, rng)
  else if content_type = "post_body" then (generate_body_narration p format_type, rng)
  else if content_type = "comments" then generate_comments_narration opts p format_type rng
  else if content_type = "engagement" then generate_engagement_narration rng
  else if content_type = "call_to_action" ∨ content_type = "outro" then
    generate_outro_narration rng
  else if content_type = "teaser" then (generate_teaser_narration p narration_style, rng)
  else ("", rng)

/-- `_generate_visual_cues`. -/
def generate_visual_cues (visual_type content_type : String) (p : Post) : Visual :=
  if visual_type = "title_screen" then
    { type := visual_type,
      elements :=
        [.text (p.title.getD "") (some "center") false,
         .label ("r/" ++ p.subreddit.getD "") "top"] }
  else if visual_type = "text_overlay" then
    { type := visual_type, elements := [.text (p.body.getD "") none true] }
  else if visual_type = "comment_section" then
    { type := visual_type,
      elements := ((p.comments.getD []).take 3).map
        (fun c => .comment (c.author.getD "") (c.body.getD "") (c.score.getD 0)) }
  else if visual_type = "stats_display" then
    { type := visual_type,
      elements :=
        [.stat "Upvotes" (p.score.getD 0),
         .stat "Comments" (p.num_comments.getD 0)] }
  else { type := visual_type, elements := [] }

/-- `_generate_segment`: build narration, drop optional empty segments,
otherwise assemble the timed segment. -/
def generate_segment (opts : ScriptOptions) (spec : SegmentSpec) (p : Post)
    (start_time : ℚ) (format_type narration_style : String) (rng : Rng) :
    Option Segment × Rng :=
  let (narration, rng') :=
    generate_narration opts spec.content_type p format_type narration_style rng
  if narration = "" ∧ spec.required = false then (none, rng')
  else
    let duration := calculate_duration opts narration spec.duration
    let visual_cues := generate_visual_cues spec.visual spec.content_type p
    (some { name := spec.name,
            type := spec.content_type,
            start_time := start_time,
            end_time := start_time + duration,
            duration := duration,
            narration := narration,
            visual := visual_cues,
            required := spec.required }, rng')

/-- One step of the segment-assembly loop in `generate_script`: append
the segment (when produced) and advance the cumulative time to its end. -/
def segStep (opts : ScriptOptions) (p : Post) (format_type narration_style : String)
    (acc : List Segment × ℚ × Rng) (spec : SegmentSpec) : List Segment × ℚ × Rng :=
  let (segs, cumulative_time, rng) := acc
  match generate_segment opts spec p cumulative_time format_type narration_style rng with
  | (some seg, rng') => (segs ++ [seg], seg.end_time, rng')
  | (none, rng') => (segs, cumulative_time, rng')

/-- `ScriptGenerator.generate_script`, with the PRNG stream and the wall
clock made explicit arguments. -/
def generate_script (opts : ScriptOptions) (post_data : Post) (format_type : String)
    (template_name : Option String) (narration_style : String) (rng : Rng)
    (now : String) : Except PyError Script :=
  match validate_post_data post_data with
  | .error e => .error e
  | .ok () =>
    let tname := template_name.getD format_type
    match get_template tname with
    | .error e => .error e
    | .ok template =>
      let metadata := generate_metadata post_data format_type tname now
      let folded := template.segments.foldl
        (segStep opts post_data format_type narration_style) ([], 0, rng)
      let segs := folded.1
      let cumulative_time := folded.2.1
      .ok { metadata := metadata,
            segments := segs,
            total_duration := cumulative_time,
            word_count := (segs.map (fun s => count_words s.narration)).sum,
            narration_style := narration_style }

end ScriptGenerator

namespace ScriptGenerator

/-- Sentence-terminal punctuation, the character class of
`re.split(r"[.!?]+", narration)`. -/
def isSentencePunct (c : Char) : Bool :=
  c = '.' || c = '!' || c = '?'

/-- The sentence splitting in `_generate_subtitles`: split on terminal
punctuation, strip each fragment, discard empty fragments.  (Splitting at
every punctuation character instead of at maximal runs only produces
extra empty fragments, which the filter removes.) -/
def split_sentences (narration : String) : List String :=
  ((splitChars isSentencePunct narration.data).map
    (fun f => String.mk (stripChars f))).filter (fun s => s ≠ "")

/-- The mutable `lines` / `current_line` / `current_length` of the
line-wrapping loop in `_generate_subtitles`. -/
structure WrapState where
  lines : List String
  current_line : List String
  current_length : Nat
deriving DecidableEq

/-- One iteration of the line-wrapping loop. -/
def wrapStep (max_chars_per_line : Nat) (st : WrapState) (word : String) : WrapState :=
  if st.current_length + word.length + 1 > max_chars_per_line then
    ⟨st.lines ++ [joinWith " " st.current_line], [word], word.length⟩
  else
    ⟨st.lines, st.current_line ++ [word], st.current_length + word.length + 1⟩

/-- The finished `lines` list of the wrapping loop (with the final
partial line flushed). -/
def wrapLines (max_chars_per_line : Nat) (words : List String) : List String :=
  let st := words.foldl (wrapStep max_chars_per_line) ⟨[], [], 0⟩
  if st.current_line ≠ [] then st.lines ++ [joinWith " " st.current_line] else st.lines

/-- The per-sentence wrapping of `_generate_subtitles`: sentences over
the limit are word-wrapped and rejoined with newlines. -/
def wrapSentence (max_chars_per_line : Nat) (sentence : String) : String :=
  if sentence.length > max_chars_per_line then
    joinWith "\n" (wrapLines max_chars_per_line (pySplitWs sentence))
  else sentence

/-- One subtitle entry (the dict with keys `start`, `end`, `text`;
`end` is spelt `endTime` because `end` is a Lean keyword). -/
structure Subtitle where
  start : ℚ
  endTime : ℚ
  text : String
deriving DecidableEq

/-- One iteration of the per-sentence loop of `_generate_subtitles`:
emit an entry and advance the running clock. -/
def subStep (time_per_sentence : ℚ) (max_chars_per_line : Nat)
    (acc : List Subtitle × ℚ) (sentence : String) : List Subtitle × ℚ :=
  let (subs, current_time) := acc
  let text := wrapSentence max_chars_per_line sentence
  (subs ++ [⟨current_time, current_time + time_per_sentence, text⟩],
   current_time + time_per_sentence)

/-- The subtitles contributed by one segment in `_generate_subtitles`
(the running clock restarts at each segment's `start_time`, so segments
contribute independently). -/
def segment_subtitles (max_chars_per_line : Nat) (seg : Segment) : List Subtitle :=
  if seg.narration = "" then []
  else
    let sentences := split_sentences seg.narration
    let time_per_sentence :=
      if sentences ≠ [] then seg.duration / (sentences.length : ℚ) else 0
    (sentences.foldl (subStep time_per_sentence max_chars_per_line)
      ([], seg.start_time)).1

/-- `_generate_subtitles` over a whole script. -/
def generate_subtitles (script : Script) (max_chars_per_line : Nat) : List Subtitle :=
  script.segments.foldl
    (fun subs seg => subs ++ segment_subtitles max_chars_per_line seg) []

/-- Python float modulo for a positive modulus. -/
def pyFMod (a b : ℚ) : ℚ := a - b * ⌊a / b⌋

/-- `_format_srt_time` (`HH:MM:SS,mmm`).  This component only formats
the non-negative times of generated scripts, where `Int.toNat` is
lossless. -/
def format_srt_time (seconds : ℚ) : String :=
  let total_seconds := seconds
  let hours := ⌊total_seconds / 3600⌋
  let minutes := ⌊(pyFMod total_seconds 3600) / 60⌋
  let secs := pyTrunc (pyFMod total_seconds 60)
  let millis := pyTrunc ((seconds - (pyTrunc seconds : ℚ)) * 1000)
  pad2 hours.toNat ++ ":" ++ pad2 minutes.toNat ++ ":" ++ pad2 secs.toNat ++
    "," ++ pad3 millis.toNat

/-- One block written by `_export_srt` for entry number `i`. -/
def srtBlock (i : Nat) (s : Subtitle) : String :=
  toString i ++ "\n" ++ format_srt_time s.start ++ " --> " ++
    format_srt_time s.endTime ++ "\n" ++ s.text ++ "\n\n"

/-- `_export_srt`, modelled as the full file content it writes
(sequence numbers from 1, default 42-character line limit). -/
def export_srt_string (script : Script) : String :=
  let subtitles := generate_subtitles script 42
  joinWith "" ((subtitles.enumFrom 1).map (fun is => srtBlock is.1 is.2))

end ScriptGenerator

/-! ## Notions used by the statements -/

namespace ScriptGenerator

/-- The contiguity/non-negativity invariant of a segment list whose
timeline starts at `t`: each segment starts where the previous one
ended, ends at `start_time + duration`, and has non-negative duration. -/
def chainedFrom (t : ℚ) : List Segment → Bool
  | [] => true
  | s :: rest =>
    decide (s.start_time = t) && decide (s.end_time = s.start_time + s.duration) &&
      decide (0 ≤ s.duration) && chainedFrom s.end_time rest

/-- The final end time of a segment list whose timeline starts at `t`. -/
def endFrom (t : ℚ) : List Segment → ℚ
  | [] => t
  | s :: rest => endFrom s.end_time rest

/-- The qualification test of the comment-selection loop, as a Boolean
predicate: the comment's score (default 0) meets the minimum. -/
def commentQualifies (min_score : Int) (c : Comment) : Bool :=
  min_score ≤ c.score.getD 0

/-- The invariant of the line-wrapping loop when every word fits within
the limit: all completed lines fit, the pending line fits, and
`current_length` over-approximates the pending line's length by at most
one (it is exactly zero when the pending line is empty). -/
def WrapInvariant (maxc : Nat) (st : WrapState) : Prop :=
  (∀ l ∈ st.lines, l.length ≤ maxc) ∧
  (joinWith " " st.current_line).length ≤ maxc ∧
  (joinWith " " st.current_line).length ≤ st.current_length ∧
  st.current_length ≤ (joinWith " " st.current_line).length + 1 ∧
  (st.current_line = [] → st.current_length = 0)

end ScriptGenerator

/-! ## Concrete sample inputs used by witnesses and counterexamples -/

open ScriptGenerator in
/-- A fully populated, valid post record. -/
def samplePost : Post :=
  { id := some "p1", title := some "TIL octopuses have three hearts",
    body := some "Octopuses have three hearts. Two pump blood to the gills.",
    subreddit := some "todayilearned", author := some "alice",
    url := some "http://example", score := some 15234, num_comments := some 2,
    comments := some [⟨some "bob", some "Fascinating!", some 2543⟩,
                      ⟨some "carol", some "Neat.", some 30⟩],
    awards := some ["Gold"] }

/-- The generator's default options (`SCRIPT_OPTIONS` defaults). -/
def defaultOpts : ScriptOptions := {}

/-- A placeholder script used only as the default of `Option.getD`. -/
def emptyScript : Script :=
  { metadata := { post_id := "", title := "", subreddit := "", author := "",
                  post_url := "", format_type := "", template := "",
                  generated_at := "", post_score := 0, num_comments := 0 },
    segments := [], total_duration := 0, word_count := 0, narration_style := "" }

/-- A placeholder subtitle entry used only as the default of `Option.getD`. -/
def dummySubtitle : ScriptGenerator.Subtitle := { start := 0, endTime := 0, text := "" }

/-- A placeholder segment used only as the default of `Option.getD`. -/
def dummySegment : Segment :=
  { name := "", type := "", start_time := 0, end_time := 0, duration := 0,
    narration := "", visual := { type := "", elements := [] }, required := true }

open ScriptGenerator in
/-- The script generated for `samplePost` in medium format. -/
def sampleScript : Script :=
  (generate_script defaultOpts samplePost "medium" none "casual" [0, 1, 2, 3]
    "2024-01-01T00:00:00").toOption.getD emptyScript

/-- A post record lacking only the `body` key. -/
def missingBodyPost : Post :=
  { title := some "T", subreddit := some "s", author := some "a" }

/-- A valid post whose `comments` key holds an empty list. -/
def emptyCommentsPost : Post :=
  { id := some "p2", title := some "A title", body := some "Some body text.",
    subreddit := some "askreddit", author := some "dana",
    score := some 10, num_comments := some 0, comments := some [] }

open ScriptGenerator in
/-- The script generated for `emptyCommentsPost` in short format. -/
def emptyCommentsShortScript : Script :=
  (generate_script defaultOpts emptyCommentsPost "short" none "casual" [0]
    "2024-01-01T00:00:00").toOption.getD emptyScript

open ScriptGenerator in
/-- The script generated for `emptyCommentsPost` in medium format. -/
def emptyCommentsMediumScript : Script :=
  (generate_script defaultOpts emptyCommentsPost "medium" none "casual" [0]
    "2024-01-01T00:00:00").toOption.getD emptyScript

open ScriptGenerator in
/-- The one-segment script of the spec's concrete SRT scenario: narration
"Hello there. Goodbye now.", duration 4.0 seconds. -/
def demoScript : Script :=
  { metadata := { post_id := "x", title := "t", subreddit := "s", author := "a",
                  post_url := "", format_type := "medium", template := "medium",
                  generated_at := "T", post_score := 0, num_comments := 0 },
    segments := [{ name := "only", type := "post_body", start_time := 0, end_time := 4,
                   duration := 4, narration := "Hello there. Goodbye now.",
                   visual := { type := "text_overlay", elements := [] }, required := true }],
    total_duration := 4, word_count := 4, narration_style := "casual" }

open ScriptGenerator in
/-- The single segment of `demoScript`. -/
def demoSeg : Segment := (demoScript.segments.headD dummySegment)

open ScriptGenerator in
/-- A segment whose narration is one 50-character word, exceeding the
42-character subtitle line limit. -/
def longWordSeg : Segment :=
  { name := "w", type := "post_body", start_time := 0, end_time := 5, duration := 5,
    narration := "aaaaaaaaaaaaaaaaaaaaaaaaaaaaaaaaaaaaaaaaaaaaaaaaaa",
    visual := { type := "text_overlay", elements := [] }, required := true }

/-! ## Helper lemmas -/

namespace ScriptGenerator

theorem calculate_duration_base_le (opts : ScriptOptions) (text : String) (base : ℚ) :
    base ≤ calculate_duration opts text base := by
  unfold calculate_duration
  split
  · exact le_refl base
  · exact le_max_left _ _

theorem get_template_ok_cases (name : String) (t : ScriptTemplate)
    (h : get_template name = .ok t) :
    t = shortFormTemplate ∨ t = mediumFormTemplate ∨ t = longFormTemplate ∨
      t = storyTimeTemplate ∨ t = compilationTemplate := by
  unfold get_template at h
  repeat' split at h
  all_goals simp_all

theorem get_template_error_valueError (name : String) (e : PyError)
    (h : get_template name = .error e) : ∃ m, e = .valueError m := by
  unfold get_template at h
  repeat' split at h
  all_goals cases h
  exact ⟨_, rfl⟩

theorem template_durations_nonneg (name : String) (t : ScriptTemplate)
    (h : get_template name = .ok t) : ∀ spec ∈ t.segments, 0 ≤ spec.duration := by
  rcases get_template_ok_cases name t h with h' | h' | h' | h' | h' <;> subst h' <;> decide

end ScriptGenerator

namespace ScriptGenerator

theorem generate_segment_some (opts : ScriptOptions) (spec : SegmentSpec) (p : Post)
    (t : ℚ) (fmt style : String) (rng rng' : Rng) (seg : Segment)
    (h : generate_segment opts spec p t fmt style rng = (some seg, rng')) :
    seg.name = spec.name ∧ seg.type = spec.content_type ∧ seg.required = spec.required ∧
    seg.start_time = t ∧
    seg.narration = (generate_narration opts spec.content_type p fmt style rng).1 ∧
    seg.duration = calculate_duration opts seg.narration spec.duration ∧
    seg.end_time = t + seg.duration ∧
    ¬(seg.narration = "" ∧ spec.required = false) := by
  rcases hn : generate_narration opts spec.content_type p fmt style rng with ⟨narr, r2⟩
  simp only [generate_segment, hn] at h
  by_cases hcond : narr = "" ∧ spec.required = false
  · rw [if_pos hcond] at h
    exact absurd h (by simp)
  · rw [if_neg hcond] at h
    simp only [Prod.mk.injEq, Option.some.injEq] at h
    obtain ⟨hseg, _⟩ := h
    subst hseg
    exact ⟨rfl, rfl, rfl, rfl, rfl, rfl, rfl, hcond⟩

theorem generate_segment_required_some (opts : ScriptOptions) (spec : SegmentSpec)
    (p : Post) (t : ℚ) (fmt style : String) (rng : Rng)
    (hreq : spec.required = true) :
    ∃ seg rng', generate_segment opts spec p t fmt style rng = (some seg, rng') := by
  rcases hn : generate_narration opts spec.content_type p fmt style rng with ⟨narr, r2⟩
  simp only [generate_segment, hn, hreq]
  simp

theorem endFrom_append_single (s : Segment) :
    ∀ (l : List Segment) (t : ℚ), endFrom t (l ++ [s]) = s.end_time := by
  intro l
  induction l with
  | nil => intro t; rfl
  | cons hd tl ih => intro t; exact ih hd.end_time

theorem endFrom_getLast (s : Segment) :
    ∀ (l : List Segment) (t : ℚ), l.getLast? = some s → endFrom t l = s.end_time := by
  intro l
  induction l with
  | nil => intro t h; exact absurd h (by simp)
  | cons hd tl ih =>
    intro t h
    cases htl : tl with
    | nil =>
      subst htl
      simp only [List.getLast?_singleton, Option.some.injEq] at h
      subst h
      rfl
    | cons x xs =>
      rw [htl] at ih h
      rw [List.getLast?_cons_cons] at h
      exact ih hd.end_time h

theorem chainedFrom_append_single (s : Segment) :
    ∀ (l : List Segment) (t : ℚ), chainedFrom t l = true → s.start_time = endFrom t l →
    s.end_time = s.start_time + s.duration → 0 ≤ s.duration →
    chainedFrom t (l ++ [s]) = true := by
  intro l
  induction l with
  | nil =>
    intro t _ h1 h2 h3
    simp only [List.nil_append, chainedFrom, Bool.and_eq_true, decide_eq_true_eq]
    exact ⟨⟨⟨h1, h2⟩, h3⟩, trivial⟩
  | cons hd tl ih =>
    intro t hc h1 h2 h3
    simp only [chainedFrom, Bool.and_eq_true] at hc
    obtain ⟨⟨⟨ha, hb⟩, hd'⟩, htl⟩ := hc
    simp only [List.cons_append, chainedFrom, Bool.and_eq_true]
    exact ⟨⟨⟨ha, hb⟩, hd'⟩, ih hd.end_time htl h1 h2 h3⟩

theorem segStep_fold_inv (opts : ScriptOptions) (p : Post) (fmt style : String) :
    ∀ (specs : List SegmentSpec), (∀ spec ∈ specs, 0 ≤ spec.duration) →
    ∀ (segs : List Segment) (cum : ℚ) (rng : Rng),
      chainedFrom 0 segs = true → cum = endFrom 0 segs →
      chainedFrom 0 (specs.foldl (segStep opts p fmt style) (segs, cum, rng)).1 = true ∧
      (specs.foldl (segStep opts p fmt style) (segs, cum, rng)).2.1 =
        endFrom 0 (specs.foldl (segStep opts p fmt style) (segs, cum, rng)).1 := by
  intro specs
  induction specs with
  | nil => intro _ segs cum rng hch hcum; exact ⟨hch, hcum⟩
  | cons spec rest ih =>
    intro hd segs cum rng hch hcum
    have hd0 : 0 ≤ spec.duration := hd spec (by simp)
    have hdrest : ∀ sp ∈ rest, 0 ≤ sp.duration := fun sp hsp => hd sp (by simp [hsp])
    rw [List.foldl_cons]
    rcases hseg : generate_segment opts spec p cum fmt style rng with ⟨o, r'⟩
    cases o with
    | none =>
      have hstep : segStep opts p fmt style (segs, cum, rng) spec = (segs, cum, r') := by
        simp only [segStep, hseg]
      rw [hstep]
      exact ih hdrest segs cum r' hch hcum
    | some seg =>
      have hstep : segStep opts p fmt style (segs, cum, rng) spec =
          (segs ++ [seg], seg.end_time, r') := by
        simp only [segStep, hseg]
      rw [hstep]
      obtain ⟨-, -, -, hst, -, hdur, hend, -⟩ :=
        generate_segment_some opts spec p cum fmt style rng r' seg hseg
      have hdge : 0 ≤ seg.duration := by
        rw [hdur]
        exact le_trans hd0 (calculate_duration_base_le opts seg.narration spec.duration)
      have hch' : chainedFrom 0 (segs ++ [seg]) = true :=
        chainedFrom_append_single seg segs 0 hch (by rw [hst, hcum])
          (by rw [hst]; exact hend) hdge
      exact ih hdrest (segs ++ [seg]) seg.end_time r' hch'
        (endFrom_append_single seg segs 0).symm

end ScriptGenerator

namespace ScriptGenerator

theorem generate_script_ok_parts (opts : ScriptOptions) (p : Post) (fmt : String)
    (tn : Option String) (style : String) (rng : Rng) (now : String) (script : Script)
    (h : generate_script opts p fmt tn style rng now = .ok script) :
    ∃ tpl, get_template (tn.getD fmt) = .ok tpl ∧
      script.segments =
        (tpl.segments.foldl (segStep opts p fmt style) ([], 0, rng)).1 ∧
      script.total_duration =
        (tpl.segments.foldl (segStep opts p fmt style) ([], 0, rng)).2.1 ∧
      script.metadata = generate_metadata p fmt (tn.getD fmt) now ∧
      script.word_count =
        ((tpl.segments.foldl (segStep opts p fmt style) ([], 0, rng)).1.map
          (fun s => count_words s.narration)).sum ∧
      script.narration_style = style := by
  unfold generate_script at h
  cases hv : validate_post_data p with
  | error e => rw [hv] at h; exact absurd h (by simp)
  | ok u =>
    cases u
    rw [hv] at h
    dsimp only at h
    cases ht : get_template (tn.getD fmt) with
    | error e => rw [ht] at h; exact absurd h (by simp)
    | ok tpl =>
      rw [ht] at h
      simp only [Except.ok.injEq] at h
      subst h
      exact ⟨tpl, rfl, rfl, rfl, rfl, rfl, rfl⟩

end ScriptGenerator

namespace ScriptGenerator

/-- C1: for every valid post record and template, the segments of the
script produced by `generate_script` form a contiguous, non-decreasing
timeline starting at 0 (each `start_time` is the previous `end_time`,
each `end_time` is `start_time + duration`, every `duration` is
non-negative), and `total_duration` equals the last segment's `end_time`
whenever at least one segment exists. -/
theorem generate_script_timeline_contiguous (opts : ScriptOptions) (p : Post)
    (fmt : String) (tn : Option String) (style : String) (rng : Rng) (now : String)
    (script : Script)
    (h : generate_script opts p fmt tn style rng now = .ok script) :
    chainedFrom 0 script.segments = true ∧
    ∀ last, script.segments.getLast? = some last →
      script.total_duration = last.end_time := by
  obtain ⟨tpl, ht, hsegs, htot, -, -, -⟩ :=
    generate_script_ok_parts opts p fmt tn style rng now script h
  have hdur := template_durations_nonneg _ _ ht
  have hinv := segStep_fold_inv opts p fmt style tpl.segments hdur [] 0 rng rfl rfl
  constructor
  · rw [hsegs]; exact hinv.1
  · intro last hlast
    rw [htot, hinv.2]
    exact endFrom_getLast last _ 0 (by rw [← hsegs]; exact hlast)

/-- Witness for C1 at a concrete post, format and seed. -/
theorem generate_script_timeline_contiguous_witness :
    chainedFrom 0 sampleScript.segments = true ∧
    sampleScript.total_duration =
      (sampleScript.segments.getLast?.getD dummySegment).end_time := by
  obtain ⟨h1, h2⟩ := generate_script_timeline_contiguous defaultOpts samplePost
    "medium" none "casual" [0, 1, 2, 3] "2024-01-01T00:00:00" sampleScript (by rfl)
  exact ⟨h1, h2 _ (by decide)⟩

end ScriptGenerator

namespace ScriptGenerator

theorem segStep_fold_prefix (opts : ScriptOptions) (p : Post) (fmt style : String) :
    ∀ (specs : List SegmentSpec) (segs : List Segment) (cum : ℚ) (rng : Rng),
      ∃ tail, (specs.foldl (segStep opts p fmt style) (segs, cum, rng)).1 = segs ++ tail := by
  intro specs
  induction specs with
  | nil => intro segs cum rng; exact ⟨[], by simp⟩
  | cons spec rest ih =>
    intro segs cum rng
    rw [List.foldl_cons]
    rcases hseg : generate_segment opts spec p cum fmt style rng with ⟨o, r'⟩
    cases o with
    | none =>
      have hstep : segStep opts p fmt style (segs, cum, rng) spec = (segs, cum, r') := by
        simp only [segStep, hseg]
      rw [hstep]
      exact ih segs cum r'
    | some seg =>
      have hstep : segStep opts p fmt style (segs, cum, rng) spec =
          (segs ++ [seg], seg.end_time, r') := by
        simp only [segStep, hseg]
      rw [hstep]
      obtain ⟨tail, htail⟩ := ih (segs ++ [seg]) seg.end_time r'
      exact ⟨[seg] ++ tail, by rw [htail, List.append_assoc]⟩

theorem segStep_fold_required_present (opts : ScriptOptions) (p : Post)
    (fmt style : String) :
    ∀ (specs : List SegmentSpec) (segs : List Segment) (cum : ℚ) (rng : Rng)
      (spec : SegmentSpec), spec ∈ specs → spec.required = true →
      ∃ seg, seg ∈ (specs.foldl (segStep opts p fmt style) (segs, cum, rng)).1 ∧
        seg.name = spec.name ∧ seg.type = spec.content_type ∧
        ∃ r, seg.narration = (generate_narration opts spec.content_type p fmt style r).1 := by
  intro specs
  induction specs with
  | nil => intro _ _ _ spec hmem; exact absurd hmem (by simp)
  | cons spec' rest ih =>
    intro segs cum rng spec hmem hreq
    rw [List.foldl_cons]
    rcases List.mem_cons.mp hmem with heq | hmem'
    · subst heq
      obtain ⟨seg, r', hseg⟩ :=
        generate_segment_required_some opts spec p cum fmt style rng hreq
      have hstep : segStep opts p fmt style (segs, cum, rng) spec =
          (segs ++ [seg], seg.end_time, r') := by
        simp only [segStep, hseg]
      rw [hstep]
      obtain ⟨hname, htype, -, -, hnarr, -, -, -⟩ :=
        generate_segment_some opts spec p cum fmt style rng r' seg hseg
      obtain ⟨tail, htail⟩ :=
        segStep_fold_prefix opts p fmt style rest (segs ++ [seg]) seg.end_time r'
      refine ⟨seg, ?_, hname, htype, rng, hnarr⟩
      rw [htail]
      simp
    · rcases hseg : generate_segment opts spec' p cum fmt style rng with ⟨o, r'⟩
      cases o with
      | none =>
        have hstep : segStep opts p fmt style (segs, cum, rng) spec' = (segs, cum, r') := by
          simp only [segStep, hseg]
        rw [hstep]
        exact ih segs cum r' spec hmem' hreq
      | some seg' =>
        have hstep : segStep opts p fmt style (segs, cum, rng) spec' =
            (segs ++ [seg'], seg'.end_time, r') := by
          simp only [segStep, hseg]
        rw [hstep]
        exact ih (segs ++ [seg']) seg'.end_time r' spec hmem' hreq

theorem segStep_fold_from_spec (opts : ScriptOptions) (p : Post) (fmt style : String) :
    ∀ (specs : List SegmentSpec) (segs : List Segment) (cum : ℚ) (rng : Rng)
      (seg : Segment), seg ∈ (specs.foldl (segStep opts p fmt style) (segs, cum, rng)).1 →
      seg ∈ segs ∨ ∃ spec, spec ∈ specs ∧ seg.name = spec.name ∧
        seg.type = spec.content_type ∧ seg.required = spec.required ∧
        (∃ r, seg.narration = (generate_narration opts spec.content_type p fmt style r).1) ∧
        ¬(seg.narration = "" ∧ spec.required = false) := by
  intro specs
  induction specs with
  | nil => intro segs _ _ seg hmem; exact Or.inl hmem
  | cons spec' rest ih =>
    intro segs cum rng seg hmem
    rw [List.foldl_cons] at hmem
    rcases hseg : generate_segment opts spec' p cum fmt style rng with ⟨o, r'⟩
    cases o with
    | none =>
      have hstep : segStep opts p fmt style (segs, cum, rng) spec' = (segs, cum, r') := by
        simp only [segStep, hseg]
      rw [hstep] at hmem
      rcases ih segs cum r' seg hmem with h | ⟨spec, hs, rest'⟩
      · exact Or.inl h
      · exact Or.inr ⟨spec, List.mem_cons_of_mem _ hs, rest'⟩
    | some seg' =>
      have hstep : segStep opts p fmt style (segs, cum, rng) spec' =
          (segs ++ [seg'], seg'.end_time, r') := by
        simp only [segStep, hseg]
      rw [hstep] at hmem
      rcases ih (segs ++ [seg']) seg'.end_time r' seg hmem with h | ⟨spec, hs, rest'⟩
      · rcases List.mem_append.mp h with h' | h'
        · exact Or.inl h'
        · have heq : seg = seg' := by simpa using h'
          subst heq
          obtain ⟨hname, htype, hreq, -, hnarr, -, -, hguard⟩ :=
            generate_segment_some opts spec' p cum fmt style rng r' seg hseg
          exact Or.inr ⟨spec', List.mem_cons_self _ _, hname, htype, hreq,
            ⟨rng, hnarr⟩, hguard⟩
      · exact Or.inr ⟨spec, List.mem_cons_of_mem _ hs, rest'⟩

end ScriptGenerator

namespace ScriptGenerator

/-- C5: every spec marked `required = True` yields a segment in the
output (even with empty narration), and no optional (`required = False`)
segment with empty derived narration appears: equivalently, every
optional segment present in the output has non-empty narration. -/
theorem required_specs_present_optional_empty_absent (opts : ScriptOptions) (p : Post)
    (fmt : String) (tn : Option String) (style : String) (rng : Rng) (now : String)
    (script : Script) (tpl : ScriptTemplate)
    (ht : get_template (tn.getD fmt) = .ok tpl)
    (h : generate_script opts p fmt tn style rng now = .ok script) :
    (∀ spec ∈ tpl.segments, spec.required = true →
      ∃ seg ∈ script.segments, seg.name = spec.name ∧ seg.type = spec.content_type) ∧
    (∀ seg ∈ script.segments, seg.required = false → seg.narration ≠ "") := by
  obtain ⟨tpl', ht', hsegs, -, -, -, -⟩ :=
    generate_script_ok_parts opts p fmt tn style rng now script h
  rw [ht] at ht'
  injection ht' with ht'
  subst ht'
  constructor
  · intro spec hmem hreq
    obtain ⟨seg, hsegmem, hname, htype, -⟩ := segStep_fold_required_present opts p fmt
      style tpl.segments [] 0 rng spec hmem hreq
    exact ⟨seg, by rw [hsegs]; exact hsegmem, hname, htype⟩
  · intro seg hmem hreq
    rw [hsegs] at hmem
    rcases segStep_fold_from_spec opts p fmt style tpl.segments [] 0 rng seg hmem with
      hin | ⟨spec, -, -, -, hreq', -, hguard⟩
    · exact absurd hin (by simp)
    · intro hempty
      exact hguard ⟨hempty, by rw [← hreq', hreq]⟩

/-- Witness for C5: in the medium-format sample script, the required
`comments` spec yields a segment, and the optional `context` segment that
does appear has non-empty narration. -/
theorem required_specs_present_optional_empty_absent_witness :
    (∃ seg ∈ sampleScript.segments, seg.name = "comments" ∧ seg.type = "comments") ∧
    (sampleScript.segments.getD 2 dummySegment).narration ≠ "" := by
  obtain ⟨h1, h2⟩ := required_specs_present_optional_empty_absent defaultOpts samplePost
    "medium" none "casual" [0, 1, 2, 3] "2024-01-01T00:00:00" sampleScript
    mediumFormTemplate (by rfl) (by rfl)
  constructor
  · exact h1 ⟨"comments", 15, true, "comments", "comment_reactions", "comment_section"⟩
      (by decide) rfl
  · exact h2 (sampleScript.segments.getD 2 dummySegment) (by decide) (by decide)

theorem generate_comments_narration_empty (opts : ScriptOptions) (p : Post)
    (fmt : String) (rng : Rng) (hc : p.comments.getD [] = []) :
    generate_comments_narration opts p fmt rng = ("", rng) := by
  simp only [generate_comments_narration, hc]
  simp

theorem generate_narration_comments (opts : ScriptOptions) (p : Post)
    (fmt style : String) (rng : Rng) :
    generate_narration opts "comments" p fmt style rng =
      generate_comments_narration opts p fmt rng := rfl

end ScriptGenerator

namespace ScriptGenerator

/-- C6 (amended): with an empty comments list, the short format (whose
comments spec is optional) emits no comments segment, while the medium
and long formats (whose comments specs are `required = True`) emit a
comments segment with empty narration. -/
theorem comments_segment_with_empty_comments (opts : ScriptOptions) (p : Post)
    (style : String) (rng : Rng) (now : String)
    (hc : p.comments.getD [] = []) :
    (∀ script, generate_script opts p "short" none style rng now = .ok script →
      ∀ seg ∈ script.segments, seg.type ≠ "comments") ∧
    (∀ fmt script, fmt = "medium" ∨ fmt = "long" →
      generate_script opts p fmt none style rng now = .ok script →
      ∃ seg ∈ script.segments, seg.type = "comments" ∧ seg.narration = "") := by
  constructor
  · intro script h seg hmem htype
    obtain ⟨tpl, ht, hsegs, -, -, -, -⟩ :=
      generate_script_ok_parts opts p "short" none style rng now script h
    have htpl : tpl = shortFormTemplate := by
      have : get_template ((none : Option String).getD "short") = .ok shortFormTemplate := rfl
      rw [this] at ht
      injection ht with ht
      exact ht.symm
    subst htpl
    rw [hsegs] at hmem
    rcases segStep_fold_from_spec opts p "short" style shortFormTemplate.segments
      [] 0 rng seg hmem with hin | ⟨spec, hspec, -, htype', hreq', ⟨r, hnarr⟩, hguard⟩
    · exact absurd hin (by simp)
    · have hct : spec.content_type = "comments" := by rw [← htype', htype]
      have hspec' : spec =
          ⟨"top_comment", 8, false, "comments", "comment_reaction", "comment_highlight"⟩ := by
        simp only [shortFormTemplate, List.mem_cons, List.mem_singleton] at hspec
        rcases hspec with h' | h' | h' | h' | h' <;> first
          | (subst h'; rfl)
          | (subst h'; exact absurd hct (by decide))
          | exact absurd h' (by simp)
      have hempty : seg.narration = "" := by
        rw [hnarr, hct, generate_narration_comments,
          generate_comments_narration_empty opts p "short" r hc]
      exact hguard ⟨hempty, by rw [hspec']⟩
  · intro fmt script hfmt h
    rcases hfmt with hfmt | hfmt
    · subst hfmt
      obtain ⟨tpl, ht, hsegs, -, -, -, -⟩ :=
        generate_script_ok_parts opts p "medium" none style rng now script h
      have htpl : tpl = mediumFormTemplate := by
        have : get_template ((none : Option String).getD "medium") =
            .ok mediumFormTemplate := rfl
        rw [this] at ht
        injection ht with ht
        exact ht.symm
      subst htpl
      obtain ⟨seg, hsegmem, -, htype, r, hnarr⟩ := segStep_fold_required_present opts p
        "medium" style mediumFormTemplate.segments [] 0 rng
        ⟨"comments", 15, true, "comments", "comment_reactions", "comment_section"⟩
        (by decide) rfl
      refine ⟨seg, by rw [hsegs]; exact hsegmem, htype, ?_⟩
      rw [hnarr, generate_narration_comments,
        generate_comments_narration_empty opts p "medium" r hc]
    · subst hfmt
      obtain ⟨tpl, ht, hsegs, -, -, -, -⟩ :=
        generate_script_ok_parts opts p "long" none style rng now script h
      have htpl : tpl = longFormTemplate := by
        have : get_template ((none : Option String).getD "long") =
            .ok longFormTemplate := rfl
        rw [this] at ht
        injection ht with ht
        exact ht.symm
      subst htpl
      obtain ⟨seg, hsegmem, -, htype, r, hnarr⟩ := segStep_fold_required_present opts p
        "long" style longFormTemplate.segments [] 0 rng
        ⟨"comments", 40, true, "comments", "comment_analysis", "comment_thread"⟩
        (by decide) rfl
      refine ⟨seg, by rw [hsegs]; exact hsegmem, htype, ?_⟩
      rw [hnarr, generate_narration_comments,
        generate_comments_narration_empty opts p "long" r hc]

/-- Witness for C6 (amended) at a concrete post with an empty comments
list: the short script's first segment is not a comments segment, and the
medium script does contain a comments segment with empty narration. -/
theorem comments_segment_with_empty_comments_witness :
    (emptyCommentsShortScript.segments.getD 0 dummySegment).type ≠ "comments" ∧
    (∃ seg ∈ emptyCommentsMediumScript.segments,
      seg.type = "comments" ∧ seg.narration = "") := by
  obtain ⟨h1, h2⟩ := comments_segment_with_empty_comments defaultOpts emptyCommentsPost
    "casual" [0] "2024-01-01T00:00:00" (by decide)
  constructor
  · exact h1 emptyCommentsShortScript (by rfl)
      (emptyCommentsShortScript.segments.getD 0 dummySegment) (by decide)
  · exact h2 "medium" emptyCommentsMediumScript (Or.inl rfl) (by rfl)

/-- Counterexample to C6 as stated: for the medium format (and likewise
long), a valid post with an empty comments list still yields a script
containing a segment of content type `comments`, because the medium
template marks that spec `required = True`. -/
theorem comments_segment_with_empty_comments_cex :
    emptyCommentsPost.comments = some [] ∧
    "comments" ∈ emptyCommentsMediumScript.segments.map Segment.type := by decide

end ScriptGenerator

namespace ScriptGenerator

theorem missingFields_ne_nil_iff (p : Post) :
    missingFields p ≠ [] ↔
      (p.title = none ∨ p.body = none ∨ p.subreddit = none ∨ p.author = none) := by
  cases h1 : p.title <;> cases h2 : p.body <;> cases h3 : p.subreddit <;>
    cases h4 : p.author <;>
    simp [missingFields, requiredFields, postHasField, h1, h2, h3, h4]

/-- C2: `generate_script` fails with `InvalidPostDataError` exactly when
the post lacks one of the keys title, body, subreddit, author; when it
does, the result is determined by the post alone (the same error for
every format, template name, style, seed and clock), so no template
lookup or segment work contributes. -/
theorem generate_script_validates_first (opts : ScriptOptions) (p : Post) (fmt : String)
    (tn : Option String) (style : String) (rng : Rng) (now : String) :
    ((∃ msg, generate_script opts p fmt tn style rng now =
        .error (.invalidPostDataError msg)) ↔
      (p.title = none ∨ p.body = none ∨ p.subreddit = none ∨ p.author = none)) ∧
    ((p.title = none ∨ p.body = none ∨ p.subreddit = none ∨ p.author = none) →
      generate_script opts p fmt tn style rng now =
        .error (.invalidPostDataError
          ("Post data missing required fields: " ++
            joinWith ", " (missingFields p)))) := by
  by_cases hmiss : missingFields p ≠ []
  · have hval : validate_post_data p = .error (.invalidPostDataError
        ("Post data missing required fields: " ++ joinWith ", " (missingFields p))) := by
      unfold validate_post_data
      rw [if_pos hmiss]
    have hgen : generate_script opts p fmt tn style rng now =
        .error (.invalidPostDataError
          ("Post data missing required fields: " ++ joinWith ", " (missingFields p))) := by
      unfold generate_script
      rw [hval]
    exact ⟨⟨fun _ => (missingFields_ne_nil_iff p).mp hmiss, fun _ => ⟨_, hgen⟩⟩,
      fun _ => hgen⟩
  · rw [not_not] at hmiss
    have hdisj : ¬(p.title = none ∨ p.body = none ∨ p.subreddit = none ∨
        p.author = none) := by
      rw [← missingFields_ne_nil_iff p]
      simp [hmiss]
    have hval : validate_post_data p = .ok () := by
      unfold validate_post_data
      rw [if_neg (by simp [hmiss])]
    refine ⟨⟨fun ⟨msg, hm⟩ => ?_, fun hd => absurd hd hdisj⟩,
      fun hd => absurd hd hdisj⟩
    unfold generate_script at hm
    rw [hval] at hm
    dsimp only at hm
    cases ht : get_template (tn.getD fmt) with
    | error e =>
      rw [ht] at hm
      obtain ⟨m, hmv⟩ := get_template_error_valueError (tn.getD fmt) e ht
      subst hmv
      simp at hm
    | ok tpl =>
      rw [ht] at hm
      simp at hm

/-- Witness for C2: a post lacking only the `body` key fails with the
corresponding `InvalidPostDataError` even with an unknown template name. -/
theorem generate_script_validates_first_witness :
    generate_script defaultOpts missingBodyPost "medium" (some "no-such-template")
      "casual" [] "X" =
      .error (.invalidPostDataError "Post data missing required fields: body") :=
  (generate_script_validates_first defaultOpts missingBodyPost "medium"
      (some "no-such-template") "casual" [] "X").2 (Or.inr (Or.inl rfl))

/-- C3: the duration calculator returns the nominal duration unchanged
for empty narration, returns
`max(nominal, word_count / words_per_minute * 60 + pause_duration)` for
non-empty narration, and never goes below the nominal duration. -/
theorem calculate_duration_spec (opts : ScriptOptions) (text : String) (base : ℚ) :
    (text = "" → calculate_duration opts text base = base) ∧
    (text ≠ "" → calculate_duration opts text base =
      max base (((count_words text : ℚ) / opts.words_per_minute) * 60 +
        opts.pause_duration)) ∧
    base ≤ calculate_duration opts text base := by
  refine ⟨?_, ?_, calculate_duration_base_le opts text base⟩
  · intro he
    unfold calculate_duration
    rw [if_pos he]
  · intro hne
    unfold calculate_duration
    rw [if_neg hne]

/-- Witness for C3 at a three-word narration and nominal duration 3. -/
theorem calculate_duration_spec_witness :
    calculate_duration defaultOpts "hi there friend" 3 =
      max 3 ((3 : ℚ) / 150 * 60 + 1 / 2) ∧
    (3 : ℚ) ≤ calculate_duration defaultOpts "hi there friend" 3 := by
  obtain ⟨-, h2, h3⟩ := calculate_duration_spec defaultOpts "hi there friend" 3
  exact ⟨h2 (by decide), h3⟩

/-- C4 (amended): `get_template` returns each of the five catalog
templates for its name and fails with `ValueError` — not a
`TemplateNotFoundError`, which exists nowhere in the code — for every
other name.  It is a pure lookup: in this embedding it is a function of
its argument alone. -/
theorem get_template_catalog (name : String) :
    (name ≠ "short" → name ≠ "medium" → name ≠ "long" → name ≠ "story" →
      name ≠ "compilation" →
      get_template name = .error (.valueError ("Invalid template: " ++ name ++
        ". Available templates: short, medium, long, story, compilation"))) ∧
    get_template "short" = .ok shortFormTemplate ∧
    get_template "medium" = .ok mediumFormTemplate ∧
    get_template "long" = .ok longFormTemplate ∧
    get_template "story" = .ok storyTimeTemplate ∧
    get_template "compilation" = .ok compilationTemplate := by
  refine ⟨?_, rfl, rfl, rfl, rfl, rfl⟩
  intro h1 h2 h3 h4 h5
  unfold get_template
  rw [if_neg h1, if_neg h2, if_neg h3, if_neg h4, if_neg h5]

/-- Witness for C4 (amended) at the unknown name "tiktok". -/
theorem get_template_catalog_witness :
    get_template "tiktok" = .error (.valueError
      ("Invalid template: tiktok. " ++
        "Available templates: short, medium, long, story, compilation")) :=
  (get_template_catalog "tiktok").1 (by decide) (by decide) (by decide) (by decide)
    (by decide)

/-- Counterexample to C4 as stated: the lookup failure for an unknown
name is a `ValueError`, not the `TemplateNotFoundError` the claim names
(no such exception class exists in the code). -/
theorem get_template_catalog_cex :
    get_template "tiktok" ≠ .error .templateNotFoundError ∧
    get_template "tiktok" = .error (.valueError
      ("Invalid template: tiktok. " ++
        "Available templates: short, medium, long, story, compilation")) := by
  constructor
  · decide
  · decide

end ScriptGenerator

namespace ScriptGenerator

theorem selectComments_take_filter (max_comments : Nat) (min_score : Int) :
    ∀ (comments selected : List Comment), selected.length ≤ max_comments →
      selectComments max_comments min_score selected comments =
        selected ++ (comments.filter (commentQualifies min_score)).take
          (max_comments - selected.length) := by
  intro comments
  induction comments with
  | nil => intro selected _; simp [selectComments]
  | cons c cs ih =>
    intro selected hlen
    unfold selectComments
    by_cases hfull : selected.length ≥ max_comments
    · rw [if_pos hfull]
      have hz : max_comments - selected.length = 0 := Nat.sub_eq_zero_of_le hfull
      simp [hz]
    · rw [if_neg hfull]
      have hlt : selected.length < max_comments := Nat.lt_of_not_le hfull
      obtain ⟨k, hk⟩ : ∃ k, max_comments - selected.length = k + 1 :=
        ⟨max_comments - selected.length - 1,
          (Nat.succ_pred_eq_of_pos (Nat.sub_pos_of_lt hlt)).symm⟩
      by_cases hq : c.score.getD 0 ≥ min_score
      · rw [if_pos hq]
        rw [ih (selected ++ [c]) (by simpa using hlt)]
        have hfq : List.filter (commentQualifies min_score) (c :: cs) =
            c :: List.filter (commentQualifies min_score) cs := by
          simp [List.filter_cons, commentQualifies, decide_eq_true hq]
        rw [hfq, hk]
        have hk' : max_comments - (selected ++ [c]).length = k := by
          simp only [List.length_append, List.length_singleton]
          omega
        rw [hk', List.take_succ_cons, List.append_assoc, List.singleton_append]
      · rw [if_neg hq]
        rw [ih selected hlen]
        have hfq : List.filter (commentQualifies min_score) (c :: cs) =
            List.filter (commentQualifies min_score) cs := by
          simp [List.filter_cons, commentQualifies]
          exact lt_of_not_le hq
        rw [hfq]

/-- C10: the comments-narration selection scans the comment list in its
original order, keeping the first qualifying comments (score at least the
format's minimum) and stopping at the format's maximum count — it equals
`take max` of the score filter, with no re-ranking — so a qualifying
comment appearing only after `max` earlier qualifying comments (however
high its score) is excluded. -/
theorem comment_selection_in_order (max_comments : Nat) (min_score : Int)
    (comments pre post : List Comment) (c : Comment)
    (hq : commentQualifies min_score c = true)
    (hfull : max_comments ≤ (pre.filter (commentQualifies min_score)).length)
    (hnotin : c ∉ pre) :
    selectComments max_comments min_score [] comments =
      (comments.filter (commentQualifies min_score)).take max_comments ∧
    c ∉ selectComments max_comments min_score [] (pre ++ c :: post) := by
  constructor
  · simpa using selectComments_take_filter max_comments min_score comments []
      (by simp)
  · have hsel := selectComments_take_filter max_comments min_score (pre ++ c :: post) []
      (by simp)
    simp only [List.nil_append, List.length_nil, Nat.sub_zero] at hsel
    rw [hsel, List.filter_append, List.take_append_of_le_length hfull]
    intro hc
    exact hnotin (List.mem_of_mem_filter (List.take_subset _ _ hc))

/-- Witness for C10: with the medium criteria (max 3 shown as 2 here for
a smaller example: max 2, min 50), a 9999-score comment after two
qualifying ones is dropped. -/
theorem comment_selection_in_order_witness :
    selectComments 2 50 []
      [⟨some "a", some "x", some 100⟩, ⟨some "b", some "y", some 60⟩,
        ⟨some "c", some "z", some 9999⟩] =
      [⟨some "a", some "x", some 100⟩, ⟨some "b", some "y", some 60⟩] ∧
    (⟨some "c", some "z", some 9999⟩ : Comment) ∉
      selectComments 2 50 []
        [⟨some "a", some "x", some 100⟩, ⟨some "b", some "y", some 60⟩,
          ⟨some "c", some "z", some 9999⟩] := by
  obtain ⟨h1, h2⟩ := comment_selection_in_order 2 50
    [⟨some "a", some "x", some 100⟩, ⟨some "b", some "y", some 60⟩,
      ⟨some "c", some "z", some 9999⟩]
    [⟨some "a", some "x", some 100⟩, ⟨some "b", some "y", some 60⟩] []
    ⟨some "c", some "z", some 9999⟩ (by decide) (by decide) (by decide)
  exact ⟨by rw [h1]; decide, h2⟩

end ScriptGenerator

namespace ScriptGenerator

/-- C8 (amended): with the same seed (PRNG stream) and identical post,
format, template name and style, two `generate_script` calls agree on
every part of the output except the `generated_at` metadata field, which
copies the wall clock; with the same clock reading the outputs are fully
identical. -/
theorem generate_script_deterministic_modulo_clock (opts : ScriptOptions) (p : Post)
    (fmt : String) (tn : Option String) (style : String) (rng : Rng)
    (now1 now2 : String) (s1 s2 : Script)
    (h1 : generate_script opts p fmt tn style rng now1 = .ok s1)
    (h2 : generate_script opts p fmt tn style rng now2 = .ok s2) :
    s1.segments = s2.segments ∧ s1.total_duration = s2.total_duration ∧
    s1.word_count = s2.word_count ∧ s1.narration_style = s2.narration_style ∧
    s1.metadata.post_id = s2.metadata.post_id ∧
    s1.metadata.title = s2.metadata.title ∧
    s1.metadata.subreddit = s2.metadata.subreddit ∧
    s1.metadata.author = s2.metadata.author ∧
    s1.metadata.post_url = s2.metadata.post_url ∧
    s1.metadata.format_type = s2.metadata.format_type ∧
    s1.metadata.template = s2.metadata.template ∧
    s1.metadata.post_score = s2.metadata.post_score ∧
    s1.metadata.num_comments = s2.metadata.num_comments ∧
    s1.metadata.generated_at = now1 ∧ s2.metadata.generated_at = now2 ∧
    (now1 = now2 → s1 = s2) := by
  obtain ⟨tpl1, ht1, hsegs1, htot1, hmeta1, hwc1, hstyle1⟩ :=
    generate_script_ok_parts opts p fmt tn style rng now1 s1 h1
  obtain ⟨tpl2, ht2, hsegs2, htot2, hmeta2, hwc2, hstyle2⟩ :=
    generate_script_ok_parts opts p fmt tn style rng now2 s2 h2
  rw [ht1] at ht2
  injection ht2 with ht2
  subst ht2
  refine ⟨by rw [hsegs1, hsegs2], by rw [htot1, htot2], by rw [hwc1, hwc2],
    by rw [hstyle1, hstyle2], by rw [hmeta1, hmeta2]; try rfl, by rw [hmeta1, hmeta2]; try rfl,
    by rw [hmeta1, hmeta2]; try rfl, by rw [hmeta1, hmeta2]; try rfl, by rw [hmeta1, hmeta2]; try rfl,
    by rw [hmeta1, hmeta2]; try rfl, by rw [hmeta1, hmeta2]; try rfl, by rw [hmeta1, hmeta2]; try rfl,
    by rw [hmeta1, hmeta2]; try rfl, by rw [hmeta1]; rfl, by rw [hmeta2]; rfl, ?_⟩
  · intro hnow
    subst hnow
    exact Except.ok.inj (h1.symm.trans h2)

/-- Witness for C8 (amended): two sample-post runs that differ only in
the clock reading still agree on their segment lists, and two runs with
the same clock reading coincide. -/
theorem generate_script_deterministic_modulo_clock_witness :
    sampleScript.segments =
      ((generate_script defaultOpts samplePost "medium" none "casual" [0, 1, 2, 3]
        "2030-12-31T23:59:59").toOption.getD emptyScript).segments ∧
    sampleScript = sampleScript := by
  obtain ⟨hsegs, rest⟩ := generate_script_deterministic_modulo_clock defaultOpts
    samplePost "medium" none "casual" [0, 1, 2, 3] "2024-01-01T00:00:00"
    "2030-12-31T23:59:59" sampleScript
    ((generate_script defaultOpts samplePost "medium" none "casual" [0, 1, 2, 3]
      "2030-12-31T23:59:59").toOption.getD emptyScript) (by rfl) (by rfl)
  exact ⟨hsegs, rfl⟩

/-- Counterexample to C8 as stated: with a fixed seed and identical post,
format, template and style, two calls whose wall-clock readings differ
produce scripts that are not identical — the `generated_at` metadata
field records the clock, which the random seed does not control. -/
theorem generate_script_deterministic_modulo_clock_cex :
    generate_script defaultOpts samplePost "medium" none "casual" [0, 1, 2, 3]
        "2024-01-01T00:00:00" ≠
      generate_script defaultOpts samplePost "medium" none "casual" [0, 1, 2, 3]
        "2024-01-01T00:00:01" := by decide

end ScriptGenerator

namespace ScriptGenerator

/-- C9: for the one-segment script with narration
"Hello there. Goodbye now." and duration 4.0 starting at 0, the subtitle
splitter yields exactly the two entries `0 → 2` and `2 → 4` (each
spanning 2.0 seconds), and the SRT export writes sequence numbers from 1,
`HH:MM:SS,mmm` timestamps `00:00:00,000 --> 00:00:02,000` and
`00:00:02,000 --> 00:00:04,000`, and a blank line after each entry. -/
theorem export_srt_concrete_scenario :
    generate_subtitles demoScript 42 =
      [⟨0, 2, "Hello there"⟩, ⟨2, 4, "Goodbye now"⟩] ∧
    export_srt_string demoScript =
      "1\n00:00:00,000 --> 00:00:02,000\nHello there\n\n" ++
        "2\n00:00:02,000 --> 00:00:04,000\nGoodbye now\n\n" := by
  constructor
  · decide
  · decide

end ScriptGenerator

namespace ScriptGenerator

theorem splitChars_no_delim (p : Char → Bool) :
    ∀ (cs : List Char), ∀ f ∈ splitChars p cs, ∀ c ∈ f, p c = false := by
  intro cs
  induction cs with
  | nil =>
    intro f hf c hc
    simp only [splitChars, List.mem_singleton] at hf
    subst hf
    exact absurd hc (by simp)
  | cons x xs ih =>
    intro f hf c hc
    by_cases hx : p x
    · simp only [splitChars, if_pos hx, List.mem_cons] at hf
      rcases hf with hf | hf
      · subst hf; exact absurd hc (by simp)
      · exact ih f hf c hc
    · simp only [splitChars, if_neg hx] at hf
      cases hsp : splitChars p xs with
      | nil =>
        rw [hsp] at hf
        simp only [List.mem_singleton] at hf
        subst hf
        have hcx : c = x := by simpa using hc
        subst hcx
        exact Bool.eq_false_iff.mpr hx
      | cons f' rest =>
        rw [hsp] at hf
        rcases List.mem_cons.mp hf with hf' | hf'
        · subst hf'
          rcases List.mem_cons.mp hc with hc' | hc'
          · subst hc'; exact Bool.eq_false_iff.mpr hx
          · exact ih f' (by rw [hsp]; exact List.mem_cons_self _ _) c hc'
        · exact ih f (by rw [hsp]; exact List.mem_cons_of_mem _ hf') c hc

theorem mem_dropWhile (q : Char → Bool) :
    ∀ (l : List Char), ∀ c ∈ l.dropWhile q, c ∈ l := by
  intro l
  induction l with
  | nil => intro c hc; simpa using hc
  | cons x xs ih =>
    intro c hc
    by_cases hx : q x
    · rw [List.dropWhile_cons_of_pos hx] at hc
      exact List.mem_cons_of_mem _ (ih c hc)
    · rw [List.dropWhile_cons_of_neg hx] at hc
      exact hc

theorem mem_stripChars (l : List Char) (c : Char) (hc : c ∈ stripChars l) : c ∈ l := by
  unfold stripChars at hc
  rw [List.mem_reverse] at hc
  have h1 := mem_dropWhile Char.isWhitespace _ c hc
  rw [List.mem_reverse] at h1
  exact mem_dropWhile Char.isWhitespace _ c h1

theorem split_sentences_fragments (narration : String) :
    ∀ s ∈ split_sentences narration, s ≠ "" ∧
      ∀ c ∈ s.data, isSentencePunct c = false := by
  intro s hs
  unfold split_sentences at hs
  obtain ⟨hmem, hne⟩ := List.mem_filter.mp hs
  obtain ⟨f, hf, hmk⟩ := List.mem_map.mp hmem
  refine ⟨by simpa using hne, ?_⟩
  intro c hc
  subst hmk
  exact splitChars_no_delim isSentencePunct narration.data f hf c
    (mem_stripChars f c hc)

theorem joinWith_cons_of_ne (sep x : String) (l : List String) (h : l ≠ []) :
    joinWith sep (x :: l) = x ++ sep ++ joinWith sep l := by
  cases l with
  | nil => exact absurd rfl h
  | cons y ys => rfl

theorem joinWith_space_append_length (w : String) :
    ∀ (l : List String), l ≠ [] →
      (joinWith " " (l ++ [w])).length = (joinWith " " l).length + 1 + w.length := by
  have hsp : String.length " " = 1 := rfl
  intro l
  induction l with
  | nil => intro h; exact absurd rfl h
  | cons x xs ih =>
    intro _
    by_cases hxs : xs = []
    · subst hxs
      show (x ++ " " ++ w).length = x.length + 1 + w.length
      rw [String.length_append, String.length_append, hsp]
    · have h1 : (x :: xs) ++ [w] = x :: (xs ++ [w]) := rfl
      rw [h1, joinWith_cons_of_ne " " x (xs ++ [w]) (by simp),
        joinWith_cons_of_ne " " x xs hxs, String.length_append,
        String.length_append, String.length_append, String.length_append,
        ih hxs, hsp]
      omega

theorem wrapStep_preserves (maxc : Nat) (st : WrapState) (w : String)
    (hw : w.length ≤ maxc) (hinv : WrapInvariant maxc st) :
    WrapInvariant maxc (wrapStep maxc st w) := by
  obtain ⟨hlines, hcur, hlo, hhi, hemp⟩ := hinv
  unfold wrapStep
  by_cases hcond : st.current_length + w.length + 1 > maxc
  · rw [if_pos hcond]
    refine ⟨?_, ?_, ?_, ?_, ?_⟩
    · intro l hl
      rcases List.mem_append.mp hl with h | h
      · exact hlines l h
      · have : l = joinWith " " st.current_line := by simpa using h
        rw [this]
        exact hcur
    · simpa [joinWith] using hw
    · simp [joinWith]
    · simp [joinWith]
    · intro h; simp at h
  · rw [if_neg hcond]
    have hcond' : st.current_length + w.length + 1 ≤ maxc := Nat.le_of_not_lt hcond
    by_cases hcl : st.current_line = []
    · have hz : st.current_length = 0 := hemp hcl
      refine ⟨hlines, ?_, ?_, ?_, ?_⟩
      · simp only [hcl, List.nil_append, joinWith]
        omega
      · simp only [hcl, List.nil_append, joinWith]
        omega
      · simp only [hcl, List.nil_append, joinWith]
        omega
      · intro h; simp at h
    · have hlen := joinWith_space_append_length w st.current_line hcl
      refine ⟨hlines, ?_, ?_, ?_, ?_⟩
      · dsimp only
        rw [hlen]
        omega
      · dsimp only
        rw [hlen]
        omega
      · dsimp only
        rw [hlen]
        omega
      · intro h; simp at h

theorem wrap_fold_invariant (maxc : Nat) :
    ∀ (words : List String) (st : WrapState),
      (∀ w ∈ words, w.length ≤ maxc) → WrapInvariant maxc st →
      WrapInvariant maxc (words.foldl (wrapStep maxc) st) := by
  intro words
  induction words with
  | nil => intro st _ hinv; exact hinv
  | cons w ws ih =>
    intro st hws hinv
    rw [List.foldl_cons]
    exact ih (wrapStep maxc st w)
      (fun w' hw' => hws w' (List.mem_cons_of_mem _ hw'))
      (wrapStep_preserves maxc st w (hws w (List.mem_cons_self _ _)) hinv)

theorem wrapLines_bound (maxc : Nat) (words : List String)
    (hw : ∀ w ∈ words, w.length ≤ maxc) :
    ∀ line ∈ wrapLines maxc words, line.length ≤ maxc := by
  intro line hline
  have hinv0 : WrapInvariant maxc ⟨[], [], 0⟩ := by
    refine ⟨by simp, by simp [joinWith], by simp [joinWith], by simp [joinWith], by simp⟩
  have hinv := wrap_fold_invariant maxc words ⟨[], [], 0⟩ hw hinv0
  obtain ⟨hlines, hcur, -, -, -⟩ := hinv
  unfold wrapLines at hline
  dsimp only at hline
  split at hline
  · rcases List.mem_append.mp hline with h | h
    · exact hlines line h
    · have : line = joinWith " " (words.foldl (wrapStep maxc) ⟨[], [], 0⟩).current_line := by
        simpa using h
      rw [this]
      exact hcur
  · exact hlines line hline

theorem wrap_fold_partition (maxc : Nat) :
    ∀ (words : List String) (st : WrapState) (wss0 : List (List String)),
      st.lines = wss0.map (joinWith " ") →
      ∃ wss : List (List String),
        (words.foldl (wrapStep maxc) st).lines = wss.map (joinWith " ") ∧
        wss.flatten ++ (words.foldl (wrapStep maxc) st).current_line =
          wss0.flatten ++ st.current_line ++ words := by
  intro words
  induction words with
  | nil =>
    intro st wss0 hst
    exact ⟨wss0, hst, by simp⟩
  | cons w ws ih =>
    intro st wss0 hst
    rw [List.foldl_cons]
    unfold wrapStep
    by_cases hcond : st.current_length + w.length + 1 > maxc
    · rw [if_pos hcond]
      obtain ⟨wss, h1, h2⟩ := ih ⟨st.lines ++ [joinWith " " st.current_line], [w],
        w.length⟩ (wss0 ++ [st.current_line]) (by simp [hst])
      refine ⟨wss, h1, h2.trans ?_⟩
      simp [List.append_assoc]
    · rw [if_neg hcond]
      obtain ⟨wss, h1, h2⟩ := ih ⟨st.lines, st.current_line ++ [w],
        st.current_length + w.length + 1⟩ wss0 hst
      refine ⟨wss, h1, h2.trans ?_⟩
      simp [List.append_assoc]

theorem wrapLines_partition (maxc : Nat) (words : List String) :
    ∃ wss : List (List String),
      wrapLines maxc words = wss.map (joinWith " ") ∧ wss.flatten = words := by
  obtain ⟨wss, h1, h2⟩ := wrap_fold_partition maxc words ⟨[], [], 0⟩ [] (by simp)
  simp only [List.flatten_nil, List.nil_append] at h2
  unfold wrapLines
  dsimp only
  split
  · refine ⟨wss ++ [(words.foldl (wrapStep maxc) ⟨[], [], 0⟩).current_line], ?_, ?_⟩
    · simp [h1]
    · simp only [List.flatten_append, List.flatten_cons, List.flatten_nil,
        List.append_nil]
      exact h2
  · rename_i hcl
    rw [not_not] at hcl
    refine ⟨wss, h1, ?_⟩
    rw [hcl] at h2
    simpa using h2

end ScriptGenerator

namespace ScriptGenerator

theorem subStep_fold_entries (tps : ℚ) (maxc : Nat) :
    ∀ (sentences : List String) (subs : List Subtitle) (t : ℚ),
      ((sentences.foldl (subStep tps maxc) (subs, t)).1.length =
        subs.length + sentences.length) ∧
      (∀ e ∈ (sentences.foldl (subStep tps maxc) (subs, t)).1,
        e ∈ subs ∨ (e.endTime = e.start + tps ∧
          ∃ s ∈ sentences, e.text = wrapSentence maxc s)) := by
  intro sentences
  induction sentences with
  | nil => intro subs t; exact ⟨by simp, fun e he => Or.inl he⟩
  | cons s ss ih =>
    intro subs t
    rw [List.foldl_cons]
    have hstep : subStep tps maxc (subs, t) s =
        (subs ++ [⟨t, t + tps, wrapSentence maxc s⟩], t + tps) := rfl
    rw [hstep]
    obtain ⟨hlen, hmem⟩ := ih (subs ++ [⟨t, t + tps, wrapSentence maxc s⟩]) (t + tps)
    constructor
    · rw [hlen]
      simp only [List.length_append, List.length_cons, List.length_nil]
      omega
    · intro e he
      rcases hmem e he with hin | ⟨hspan, s', hs', htext⟩
      · rcases List.mem_append.mp hin with h | h
        · exact Or.inl h
        · have heq : e = ⟨t, t + tps, wrapSentence maxc s⟩ := by simpa using h
          subst heq
          exact Or.inr ⟨rfl, s, List.mem_cons_self _ _, rfl⟩
      · exact Or.inr ⟨hspan, s', List.mem_cons_of_mem _ hs', htext⟩

/-- C7 (amended): for every segment, the subtitle splitter produces one
entry per sentence (sentences being the non-empty, punctuation-free
fragments obtained by splitting on `.`, `!`, `?`), each entry spanning
`duration / sentence_count`; a long sentence is greedily wrapped into
lines that are space-joins of a partition of its words (no word is
broken), and every emitted line is at or under the limit provided every
word of the sentence fits within the limit.  (Without that proviso the
bound fails: a single word longer than the limit occupies a line of its
own that exceeds it — see the counterexample.) -/
theorem subtitle_splitter_spec (maxc : Nat) (seg : Segment) :
    (segment_subtitles maxc seg).length = (split_sentences seg.narration).length ∧
    (∀ e ∈ segment_subtitles maxc seg,
      e.endTime - e.start =
        seg.duration / ((split_sentences seg.narration).length : ℚ)) ∧
    (∀ s ∈ split_sentences seg.narration,
      s ≠ "" ∧ ∀ c ∈ s.data, isSentencePunct c = false) ∧
    (∀ s : String, (∀ w ∈ pySplitWs s, w.length ≤ maxc) →
      ∀ line ∈ wrapLines maxc (pySplitWs s), line.length ≤ maxc) ∧
    (∀ s : String, ∃ wss : List (List String),
      wrapLines maxc (pySplitWs s) = wss.map (joinWith " ") ∧
      wss.flatten = pySplitWs s) := by
  by_cases hn : seg.narration = ""
  · have h1 : segment_subtitles maxc seg = [] := by
      unfold segment_subtitles
      rw [if_pos hn]
    have h2 : split_sentences seg.narration = [] := by
      rw [hn]
      rfl
    refine ⟨by rw [h1, h2]; rfl, ?_, split_sentences_fragments seg.narration,
      fun s hw => wrapLines_bound maxc (pySplitWs s) hw,
      fun s => wrapLines_partition maxc (pySplitWs s)⟩
    intro e he
    rw [h1] at he
    exact absurd he (by simp)
  · have h1 : segment_subtitles maxc seg =
        ((split_sentences seg.narration).foldl
          (subStep (if split_sentences seg.narration ≠ [] then
            seg.duration / (((split_sentences seg.narration).length : ℚ)) else 0) maxc)
          ([], seg.start_time)).1 := by
      unfold segment_subtitles
      rw [if_neg hn]
    refine ⟨?_, ?_, split_sentences_fragments seg.narration,
      fun s hw => wrapLines_bound maxc (pySplitWs s) hw,
      fun s => wrapLines_partition maxc (pySplitWs s)⟩
    · rw [h1, (subStep_fold_entries _ maxc _ [] seg.start_time).1]
      simp
    · intro e he
      rw [h1] at he
      rcases (subStep_fold_entries _ maxc _ [] seg.start_time).2 e he with
        hin | ⟨hspan, -⟩
      · exact absurd hin (by simp)
      · by_cases hs : split_sentences seg.narration = []
        · rw [hs] at he
          exact absurd he (by simp)
        · rw [if_pos hs] at hspan
          rw [hspan]
          ring

/-- Witness for C7 (amended) at the demo segment (two sentences, 4.0s)
and a concrete long sentence of short words. -/
theorem subtitle_splitter_spec_witness :
    (segment_subtitles 42 demoSeg).length = 2 ∧
    ((segment_subtitles 42 demoSeg).getD 0 dummySubtitle).endTime -
      ((segment_subtitles 42 demoSeg).getD 0 dummySubtitle).start = 4 / (2 : ℚ) ∧
    ("Hello there" ≠ "" ∧
      ∀ c ∈ "Hello there".data, isSentencePunct c = false) ∧
    ((wrapLines 42 (pySplitWs
        "this sentence is quite long and goes well past the limit")).getD 0 "").length
      ≤ 42 ∧
    (∃ wss : List (List String),
      wrapLines 42 (pySplitWs
        "this sentence is quite long and goes well past the limit") =
          wss.map (joinWith " ") ∧
      wss.flatten = pySplitWs
        "this sentence is quite long and goes well past the limit") := by
  obtain ⟨hlen, hspan, hfrag, hbound, hpart⟩ := subtitle_splitter_spec 42 demoSeg
  refine ⟨by rw [hlen]; decide,
    hspan ((segment_subtitles 42 demoSeg).getD 0 dummySubtitle) (by decide),
    hfrag "Hello there" (by decide),
    hbound "this sentence is quite long and goes well past the limit" (by decide) _
      (by decide),
    hpart "this sentence is quite long and goes well past the limit"⟩

/-- Counterexample to C7 as stated: a sentence that is one 50-character
word gets wrapped, but the resulting line (the word alone) is 50
characters — over the 42-character limit — so "every emitted line is at
or under the limit" is false. -/
theorem subtitle_splitter_spec_cex :
    ∃ e ∈ segment_subtitles 42 longWordSeg,
      ∃ line ∈ wrapLines 42 (pySplitWs longWordSeg.narration),
        42 < line.length ∧ e.text = "\n" ++ line := by decide

end ScriptGenerator
